import Mathlib

/-!
Verification development for the sanic-router path-routing engine.

The repository ships its test corpus (`src/tests/test_routing.py`) and package
declarations (`src/sanic_routing/__init__.py`); the engine modules themselves
(`route`, `group`, `router`) are not in the source tree.  The definitions
below are therefore modelled from the specification (`spec.md`), sections 3
and 4, with the test corpus used as the binding authority wherever it pins
concrete behavior (it is the only engine code in the tree).  Each definition's
doc comment records what it models.
-/

/-- Modelled from the spec: handlers are opaque callable references; the engine
never inspects them, so we identify a handler by a natural number. -/
abbrev Handler : Type := Nat

/-- Modelled from the spec: the names of the registered Type Rules.  The six
built-ins are `uuid`, `ymd`, `number`, `int`, `alpha`, `string`; an
unregistered label is kept as a custom pattern (the test
`test_use_param_name_with_casing` registers `<name:str>` successfully, so an
unknown label is not rejected). -/
inductive ParamType : Type where
  | uuid : ParamType
  | ymd : ParamType
  | number : ParamType
  | int : ParamType
  | alpha : ParamType
  | string : ParamType
  | custom (pat : String) : ParamType
deriving DecidableEq, Repr

/-- Modelled from the spec: specificity rank, a total order from most specific
(`uuid`, rank 0) to least specific (`string`, the catch-all, last).  Custom
patterns are not exercised at resolution time by the test corpus; they are
ranked between `alpha` and `string`. -/
def ParamType.rank : ParamType → Nat
  | .uuid => 0
  | .ymd => 1
  | .number => 2
  | .int => 3
  | .alpha => 4
  | .custom _ => 5
  | .string => 6

/-- Modelled from the spec: the semantic values produced by the conversion
functions — a string (for `string`/`alpha`), an integer, a decimal number
(mantissa and decimal-place count, the exact value of a parsed float literal),
a calendar date, or a canonicalised uuid text. -/
inductive Value : Type where
  | vStr (s : String) : Value
  | vInt (i : Int) : Value
  | vNum (mantissa : Int) (scale : Nat) : Value
  | vDate (y m d : Nat) : Value
  | vUuid (s : String) : Value
deriving DecidableEq, Repr

/-- Numeric value of a list of decimal digit characters. -/
def digitsVal (l : List Char) : Nat :=
  l.foldl (fun a c => a * 10 + (c.toNat - 48)) 0

/-- All characters are decimal digits. -/
def allDigits (l : List Char) : Bool :=
  l.all Char.isDigit

/-- Hexadecimal digit recognition, for the uuid pattern. -/
def isHexChar (c : Char) : Bool :=
  c.isDigit || ('a' ≤ c && c ≤ 'f') || ('A' ≤ c && c ≤ 'F')

/-- Split a character list on a delimiter character; always returns at least
one (possibly empty) group. -/
def splitOnChar (d : Char) : List Char → List (List Char)
  | [] => [[]]
  | c :: rest =>
    match splitOnChar d rest with
    | [] => [[c]]
    | seg :: segs => if c = d then [] :: seg :: segs else (c :: seg) :: segs

/-- Modelled from the spec: the `int` rule recognises an optionally negated
run of decimal digits and converts it to an integer. -/
def intCast : List Char → Option Value
  | '-' :: rest =>
    if rest ≠ [] && allDigits rest then some (.vInt (-(digitsVal rest : Int))) else none
  | l =>
    if l ≠ [] && allDigits l then some (.vInt (digitsVal l : Int)) else none

/-- Modelled from the spec: the `number` rule recognises a floating-point
literal.  The test corpus requires the literal integer token `11111` to be
claimed by the `int` rule even with `number` registered at the same position
(`test_casting`), and `number` is more specific than `int`; hence the `number`
pattern requires a decimal point: an optional sign, then either
`digits . digits*` or `. digits+`.  The conversion keeps the exact decimal
value as mantissa and scale. -/
def numCastCore (l : List Char) (neg : Bool) : Option Value :=
  match splitOnChar '.' l with
  | [ip, fp] =>
    if (ip ≠ [] && allDigits ip && allDigits fp)
        || (ip = [] && fp ≠ [] && allDigits fp) then
      let m : Int := (digitsVal (ip ++ fp) : Int)
      some (.vNum (if neg then -m else m) fp.length)
    else none
  | _ => none

/-- Sign handling for the `number` rule. -/
def numCast : List Char → Option Value
  | '-' :: rest => numCastCore rest true
  | l => numCastCore l false

/-- Modelled from the spec: the `ymd` rule recognises an ISO calendar date
`YYYY-MM-DD` (four, two and two digits, month 01–12, day 01–31) and converts
it to its year, month and day numbers. -/
def dateCast (l : List Char) : Option Value :=
  match splitOnChar '-' l with
  | [y, m, d] =>
    if y.length = 4 && m.length = 2 && d.length = 2
        && allDigits y && allDigits m && allDigits d
        && 1 ≤ digitsVal m && digitsVal m ≤ 12
        && 1 ≤ digitsVal d && digitsVal d ≤ 31 then
      some (.vDate (digitsVal y) (digitsVal m) (digitsVal d))
    else none
  | _ => none

/-- Modelled from the spec: the `uuid` rule recognises five hyphen-separated
hexadecimal groups of lengths 8-4-4-4-12 and converts to the canonical
(lower-case) text. -/
def uuidCast (l : List Char) : Option Value :=
  match splitOnChar '-' l with
  | [a, b, c, d, e] =>
    if a.length = 8 && b.length = 4 && c.length = 4 && d.length = 4
        && e.length = 12
        && a.all isHexChar && b.all isHexChar && c.all isHexChar
        && d.all isHexChar && e.all isHexChar then
      some (.vUuid ⟨(l.map Char.toLower)⟩)
    else none
  | _ => none

/-- Modelled from the spec: `cast(rule_name, text) -> value | failure`.  A
failed cast signals "this candidate does not match"; the recognition pattern
and the conversion function are fused here, so a rule accepts a token exactly
when `castValue` is `some`.  `string` is the catch-all and always matches;
`alpha` requires a non-empty run of letters.  A custom pattern's resolution
semantics are not described by the spec nor exercised by the tests; it is
modelled as matching only its own literal text. -/
def castValue : ParamType → String → Option Value
  | .string, s => some (.vStr s)
  | .alpha, s => if s.data ≠ [] && s.data.all Char.isAlpha then some (.vStr s) else none
  | .int, s => intCast s.data
  | .number, s => numCast s.data
  | .ymd, s => dateCast s.data
  | .uuid, s => uuidCast s.data
  | .custom p, s => if s = p then some (.vStr s) else none

/-- The six built-in rules in the registry. -/
def builtinTypes : List ParamType :=
  [.uuid, .ymd, .number, .int, .alpha, .string]

/-- Modelled from the spec: the most specific built-in rule whose recognition
pattern accepts the token, trying `uuid`, `ymd`, `number`, `int`, `alpha`,
`string` in that fixed order (`string` always matches). -/
def mostSpecific (tok : String) : ParamType :=
  if (castValue .uuid tok).isSome then .uuid
  else if (castValue .ymd tok).isSome then .ymd
  else if (castValue .number tok).isSome then .number
  else if (castValue .int tok).isSome then .int
  else if (castValue .alpha tok).isSome then .alpha
  else .string


/-- Modelled from the spec: one slash-delimited atom of a path pattern — a
literal static segment, or a dynamic parameter with a name and a declared
type (defaulting to `string` when omitted). -/
inductive Segment : Type where
  | lit (text : String) : Segment
  | param (name : String) (tp : ParamType) : Segment
deriving DecidableEq, Repr

/-- Names of the dynamic segments, in order. -/
def paramNames : List Segment → List String
  | [] => []
  | .lit _ :: rest => paramNames rest
  | .param n _ :: rest => n :: paramNames rest

/-- Modelled from the spec: one registration — the raw token texts (`parts`,
the route's identity as exposed by introspection), the parsed segments, the
strictness flag, the requirements (constraints) mapping, and the table from
method-set to handler. -/
structure Route : Type where
  parts : List String
  segments : List Segment
  strict : Bool
  requirements : List (String × String)
  handlers : List (List String × Handler)
deriving DecidableEq, Repr

/-- A route is static when it has no dynamic segment. -/
def Route.isStatic (rt : Route) : Bool :=
  rt.segments.all fun s => match s with | .lit _ => true | .param _ _ => false

/-- Modelled from the spec: one Compiled RTree node — a mapping from literal
segment text to a static child, an ordered list of dynamic children sorted by
specificity rank, and the terminal Routes bound at this depth.  Children are
referenced by index into the tree's node arena. -/
structure RTreeNode : Type where
  statics : List (String × Nat)
  dynamics : List (ParamType × Nat)
  leaves : List Route
deriving DecidableEq, Repr

/-- The Compiled RTree: an arena of nodes, the root at index 0. -/
structure RTree : Type where
  nodes : List RTreeNode
deriving DecidableEq, Repr

/-- Modelled from the spec: error kinds reported by the engine. -/
inductive RouterError : Type where
  | routeExists : RouterError
  | paramNameError : RouterError
  | notFound : RouterError
  | noMethod : RouterError
  | configError : RouterError
  | alreadyFinalized : RouterError
deriving DecidableEq, Repr

/-- Modelled from the spec: the Router — a delimiter fixed at construction,
the mutable Route collection, the `finalized` flag and the Compiled RTree
(rebuilt wholesale by each `finalize`). -/
structure Router : Type where
  delimiter : Char
  routes : List Route
  finalized : Bool
  tree : RTree
deriving DecidableEq, Repr

/-- A fresh router with the default `/` delimiter. -/
def Router.empty : Router :=
  { delimiter := '/', routes := [], finalized := false, tree := ⟨[]⟩ }

instance : Inhabited Router := ⟨Router.empty⟩

/-- Extract the router from a successful operation (defaulting on error;
paired with `okB` assertions wherever success itself is claimed). -/
def expectOk (e : Except RouterError Router) : Router :=
  match e with
  | .ok r => r
  | .error _ => Router.empty

/-- Boolean success test for a registration/finalization outcome. -/
def okB (e : Except RouterError Router) : Bool :=
  match e with
  | .ok _ => true
  | .error _ => false

/-- Modelled from the spec: the default method-set when the caller specifies
no methods is the single implicit method, exposed by the test corpus as the
literal method name used on every methodless resolve. -/
def defaultMethod : String := "BASE"

/-- Drop a single leading delimiter. -/
def stripLead (d : Char) : List Char → List Char
  | [] => []
  | c :: rest => if c = d then rest else c :: rest

/-- Drop a single trailing delimiter. -/
def stripTrail (d : Char) (l : List Char) : List Char :=
  (stripLead d l.reverse).reverse

/-- Split a path's characters into segment token strings. -/
def splitTokens (d : Char) (l : List Char) : List String :=
  (splitOnChar d l).map fun cs => ⟨cs⟩

/-- Split at the first occurrence of a delimiter, when present. -/
def splitFirst (d : Char) : List Char → Option (List Char × List Char)
  | [] => none
  | c :: rest =>
    if c = d then some ([], rest)
    else (splitFirst d rest).map fun p => (c :: p.1, p.2)

/-- Modelled from the spec: look a declared type label up in the Type
Registry; an unregistered label is kept as a custom pattern (binding evidence:
`test_use_param_name_with_casing` registers `<name:str>` without error). -/
def labelToType (s : String) : ParamType :=
  if s = "uuid" then .uuid
  else if s = "ymd" then .ymd
  else if s = "number" then .number
  else if s = "int" then .int
  else if s = "alpha" then .alpha
  else if s = "string" then .string
  else .custom s

/-- Modelled from the spec: parse one raw token.  A token wrapped in `<...>`
is a dynamic segment `<name>` or `<name:type>` — the name taken verbatim,
the type defaulting to `string`; an empty name is malformed parameter syntax
(ParamNameError).  Any other token is a literal static segment. -/
def parseToken (tok : String) : Except RouterError Segment :=
  match tok.data with
  | '<' :: rest =>
    if rest.getLast? = some '>' then
      let inner := rest.dropLast
      match splitFirst ':' inner with
      | none =>
        if inner = [] then .error .paramNameError
        else .ok (.param ⟨inner⟩ .string)
      | some (name, label) =>
        if name = [] then .error .paramNameError
        else .ok (.param ⟨name⟩ (labelToType ⟨label⟩))
    else .ok (.lit tok)
  | _ => .ok (.lit tok)

/-- Parse every raw token of a path. -/
def parseTokens : List String → Except RouterError (List Segment)
  | [] => .ok []
  | t :: rest =>
    match parseToken t with
    | .error e => .error e
    | .ok s =>
      match parseTokens rest with
      | .error e => .error e
      | .ok ss => .ok (s :: ss)

/-- Modelled from the spec: split a registration path into raw tokens —
strip a single leading delimiter, and under non-strict mode also a single
trailing delimiter (under strict mode the trailing empty segment is part of
the route's identity). -/
def pathTokens (d : Char) (strict : Bool) (path : String) : List String :=
  let l := stripLead d path.data
  splitTokens d (if strict then l else stripTrail d l)

/-- Two routes have the same full signature: same parsed parts including each
dynamic segment's declared type, same strictness, same constraints. -/
def sameSig (rt : Route) (segs : List Segment) (strict : Bool)
    (reqs : List (String × String)) : Bool :=
  decide (rt.segments = segs) && rt.strict == strict && decide (rt.requirements = reqs)

/-- A method-set overlaps the route's registered handler table. -/
def methodsOverlap (ms : List String) (handlers : List (List String × Handler)) : Bool :=
  ms.any fun m => handlers.any fun e => e.1.contains m

/-- Modelled from the spec (§4.2): registration.  Split and parse the path,
compute the signature, locate the Route by signature; on an identical
signature, merge a disjoint method-set, fail with RouteExists on an overlap
without `overwrite`, and with `overwrite` replace the conflicting entries;
otherwise insert a new Route.  Mutation after finalization is refused. -/
def Router.add (r : Router) (path : String) (handler : Handler)
    (methods : Option (List String)) (strict : Bool)
    (requirements : List (String × String)) (overwrite : Bool) :
    Except RouterError Router :=
  if r.finalized then .error .alreadyFinalized
  else
    let ms := methods.getD [defaultMethod]
    let raw := pathTokens r.delimiter strict path
    match parseTokens raw with
    | .error e => .error e
    | .ok segs =>
      match r.routes.find? (fun rt => sameSig rt segs strict requirements) with
      | some rt =>
        if methodsOverlap ms rt.handlers && !overwrite then .error .routeExists
        else
          let kept :=
            if overwrite then rt.handlers.filter fun e => !(ms.any fun m => e.1.contains m)
            else rt.handlers
          let rt2 : Route := { rt with handlers := kept ++ [(ms, handler)] }
          .ok { r with routes :=
            r.routes.map fun x => if sameSig x segs strict requirements then rt2 else x }
      | none =>
        .ok { r with routes := r.routes ++
          [{ parts := raw, segments := segs, strict := strict,
             requirements := requirements, handlers := [(ms, handler)] }] }

/-- Introspection: the registered static-only routes. -/
def Router.staticRoutes (r : Router) : List Route :=
  r.routes.filter Route.isStatic

/-- Introspection: the registered routes containing a dynamic segment. -/
def Router.dynamicRoutes (r : Router) : List Route :=
  r.routes.filter fun rt => !rt.isStatic


/-- An empty compiled-tree node. -/
def emptyNode : RTreeNode := ⟨[], [], []⟩

/-- Insert a dynamic child into a depth's dynamic-child list, keeping the
list sorted by specificity rank, stably with respect to insertion order. -/
def insertDyn (tp : ParamType) (ci : Nat) : List (ParamType × Nat) → List (ParamType × Nat)
  | [] => [(tp, ci)]
  | (t, i) :: rest =>
    if t.rank ≤ tp.rank then (t, i) :: insertDyn tp ci rest
    else (tp, ci) :: (t, i) :: rest

/-- Find the child for an already-present dynamic rule at a depth. -/
def dynFind (tp : ParamType) : List (ParamType × Nat) → Option Nat
  | [] => none
  | (t, i) :: rest => if t = tp then some i else dynFind tp rest

/-- Find the static child keyed by a literal text at a depth. -/
def statFind (txt : String) : List (String × Nat) → Option Nat
  | [] => none
  | (t, i) :: rest => if t = txt then some i else statFind txt rest

/-- Modelled from the spec (§4.3): insert one Route's parts into the arena
depth-first — each static segment becomes or reuses a literal-keyed child,
each dynamic segment becomes or reuses a rule-keyed child inserted in rank
order; the terminal node binds the Route. -/
def insertSegs (rt : Route) : List Segment → List RTreeNode → Nat → List RTreeNode
  | [], nodes, idx =>
    match nodes[idx]? with
    | none => nodes
    | some n => nodes.set idx { n with leaves := n.leaves ++ [rt] }
  | seg :: rest, nodes, idx =>
    match nodes[idx]? with
    | none => nodes
    | some n =>
      match seg with
      | .lit txt =>
        match statFind txt n.statics with
        | some ci => insertSegs rt rest nodes ci
        | none =>
          let ci := nodes.length
          insertSegs rt rest
            ((nodes.set idx { n with statics := n.statics ++ [(txt, ci)] }) ++ [emptyNode]) ci
      | .param _ tp =>
        match dynFind tp n.dynamics with
        | some ci => insertSegs rt rest nodes ci
        | none =>
          let ci := nodes.length
          insertSegs rt rest
            ((nodes.set idx { n with dynamics := insertDyn tp ci n.dynamics }) ++ [emptyNode]) ci

/-- Build the node arena from the Route collection, starting from a lone
empty root node. -/
def buildNodes (routes : List Route) : List RTreeNode :=
  routes.foldl (fun nodes rt => insertSegs rt rt.segments nodes 0) [emptyNode]

/-- No two elements of the list are equal. -/
def distinctB : List (List (String × String)) → Bool
  | [] => true
  | x :: xs => !(xs.contains x) && distinctB xs

/-- Modelled from the spec: finalize's invariant assertion — no two compiled
leaves at one node (hence with the same skeleton and the same types) may carry
the same constraints. -/
def checkNodes (nodes : List RTreeNode) : Bool :=
  nodes.all fun n => distinctB (n.leaves.map Route.requirements)

/-- Modelled from the spec (§4.3): derive the Compiled Tree from the current
Route collection, wholesale replacing the prior tree, and set `finalized`.
An indistinguishable pair of leaves is a configuration-class error. -/
def Router.finalize (r : Router) : Except RouterError Router :=
  if checkNodes (buildNodes r.routes) then
    .ok { r with tree := ⟨buildNodes r.routes⟩, finalized := true }
  else .error .configError

/-- The requirements mapping is satisfied by the extra mapping supplied at
resolution time. -/
def satisfiesReq (req extra : List (String × String)) : Bool :=
  req.all fun kv =>
    match extra.lookup kv.1 with
    | some v => v == kv.2
    | none => false

/-- The first dynamic child, in specificity order, whose rule casts the
token, with the cast value. -/
def firstDyn : List (ParamType × Nat) → String → Option (Nat × Value)
  | [], _ => none
  | (tp, ci) :: rest, tok =>
    match castValue tp tok with
    | some v => some (ci, v)
    | none => firstDyn rest tok

/-- The outcome of a successful resolution: the matched route's parts, the
handler, and the extracted parameter name → cast value map. -/
structure RMatch : Type where
  parts : List String
  handler : Handler
  params : List (String × Value)
deriving DecidableEq, Repr

/-- Modelled from the spec (§4.4): walk the compiled tree depth-by-depth.
At each depth the literal static child is attempted first, then the dynamic
children in specificity order; the first match is descended into greedily (no
backtracking).  On token exhaustion a terminal leaf is selected (respecting
constraints) and the method looked up: absence of any candidate is NotFound,
an unregistered method at a leaf is NoMethod. -/
def walk (nodes : List RTreeNode) (method : String) (extra : List (String × String)) :
    Nat → List String → List Value → Except RouterError RMatch
  | idx, [], acc =>
    match nodes[idx]? with
    | none => .error .notFound
    | some n =>
      match n.leaves.find? (fun rt => satisfiesReq rt.requirements extra) with
      | none => .error .notFound
      | some rt =>
        match rt.handlers.find? (fun e => e.1.contains method) with
        | none => .error .noMethod
        | some e => .ok ⟨rt.parts, e.2, (paramNames rt.segments).zip acc⟩
  | idx, tok :: rest, acc =>
    match nodes[idx]? with
    | none => .error .notFound
    | some n =>
      match statFind tok n.statics with
      | some ci => walk nodes method extra ci rest acc
      | none =>
        match firstDyn n.dynamics tok with
        | some (ci, v) => walk nodes method extra ci rest (acc ++ [v])
        | none => .error .notFound

/-- Resolution from an already-split token sequence (the core of `resolve`;
token strings contain no delimiter by construction). -/
def Router.resolveParts (r : Router) (tokens : List String) (method : String)
    (extra : List (String × String)) : Except RouterError RMatch :=
  walk r.tree.nodes method extra 0 tokens []

/-- Modelled from the spec (§4.4): resolve a concrete path — split on the
delimiter (one leading delimiter stripped) and walk the compiled tree. -/
def Router.resolve (r : Router) (path : String) (method : String)
    (extra : List (String × String)) : Except RouterError RMatch :=
  r.resolveParts (splitTokens r.delimiter (stripLead r.delimiter path.data)) method extra

deriving instance DecidableEq for Except


/-- Registration with the default method-set, non-strict, no requirements. -/
def Router.addB (r : Router) (path : String) (h : Handler) : Router :=
  expectOk (r.add path h none false [] false)

/-- Finalize, extracting the finalized router. -/
def Router.finB (r : Router) : Router :=
  expectOk r.finalize

/-- Router of `test_use_route_type_coercion`: `/test/<foo:int>` and
`/test/<foo:int>/bar`. -/
def coercionRouter : Router :=
  ((Router.empty.addB "/test/<foo:int>" 1).addB "/test/<foo:int>/bar" 2).finB

/-- Router of `test_use_route_type_coercion_deeper`: additionally
`/test/<foo:int>/bar/baz`. -/
def coercionRouterDeep : Router :=
  (((Router.empty.addB "/test/<foo:int>" 1).addB "/test/<foo:int>/bar" 2).addB
    "/test/<foo:int>/bar/baz" 3).finB

/-- C5: once a depth is exhausted of candidates (no static child, no dynamic
alternative accepting the token), or tokens remain past a terminal leaf, or
the sequence ends at a non-matching node, resolution fails with NotFound and
no partial result: with `/test/<foo:int>` and `/test/<foo:int>/bar`
registered, `/test/123/aaaa` is NotFound (and likewise the other inputs of
the cited tests), while the registered shapes still resolve. -/
theorem c5_notfound_without_backtracking :
    coercionRouter.resolve "/test/123" "BASE" [] = .ok ⟨["test", "<foo:int>"], 1, [("foo", .vInt 123)]⟩
    ∧ coercionRouter.resolve "/test/123/bar" "BASE" []
        = .ok ⟨["test", "<foo:int>", "bar"], 2, [("foo", .vInt 123)]⟩
    ∧ coercionRouter.resolve "/test/foo/aaaa" "BASE" [] = .error .notFound
    ∧ coercionRouter.resolve "/test/123/aaaa" "BASE" [] = .error .notFound
    ∧ coercionRouter.resolve "/test/123/aaaa/bbbb" "BASE" [] = .error .notFound
    ∧ coercionRouterDeep.resolve "/test/123/bar/baz" "BASE" []
        = .ok ⟨["test", "<foo:int>", "bar", "baz"], 3, [("foo", .vInt 123)]⟩
    ∧ coercionRouterDeep.resolve "/test/foo/aaaa" "BASE" [] = .error .notFound
    ∧ coercionRouterDeep.resolve "/test/123/aaaa" "BASE" [] = .error .notFound
    ∧ coercionRouterDeep.resolve "/test/123/aaaa/bbbb" "BASE" [] = .error .notFound
    ∧ coercionRouterDeep.resolve "/test/123/aaaa/bbbb/cccc" "BASE" [] = .error .notFound
    ∧ coercionRouterDeep.resolve "/test/foo/bar" "BASE" [] = .error .notFound
    ∧ coercionRouterDeep.resolve "/test/123/bar/bbbb" "BASE" [] = .error .notFound
    ∧ coercionRouterDeep.resolve "/test/123/bar/bbbb/cccc" "BASE" [] = .error .notFound := by
  decide

/-- C7 counterexample: `add` of `/path/<fooBar:str>` — a dynamic segment
whose declared type name is not among the registered built-ins — does not
fail with ParamNameError; it succeeds and keeps the raw token text in the
route's parts, exactly as `test_use_param_name_with_casing` requires. -/
theorem c7_unregistered_label_no_failure :
    Router.empty.add "/path/<fooBar:str>" 0 none false [] false ≠ .error .paramNameError
    ∧ (Router.empty.add "/path/<fooBar:str>" 0 none false [] false).toOption.map
        (fun r => r.routes.map Route.parts) = some [["path", "<fooBar:str>"]] := by
  decide

/-- C7 amended: `add` with a dynamic segment declaring an unregistered type
name succeeds (the raw part text is preserved); a ParamNameError-class
failure occurs for malformed parameter syntax, such as an empty parameter
name. -/
theorem c7_unregistered_label_accepted :
    okB (Router.empty.add "/path/<fooBar:str>" 0 none false [] false) = true
    ∧ (Router.empty.add "/path/<fooBar:str>" 0 none false [] false).toOption.map
        (fun r => r.routes.map Route.parts) = some [["path", "<fooBar:str>"]]
    ∧ Router.empty.add "/path/<:int>" 0 none false [] false = .error .paramNameError := by
  decide

/-- First registration of `test_conditional_check_proper_compile`:
`/<foo>/`, strict, no requirements. -/
def condAdd1 : Except RouterError Router :=
  Router.empty.add "/<foo>/" 0 none true [] false

/-- Second registration: same path text, same strictness, same type, but a
requirements mapping `{foo: bar}`. -/
def condAdd2 : Except RouterError Router :=
  (expectOk condAdd1).add "/<foo>/" 1 none true [("foo", "bar")] false

/-- C10: two registrations identical except for their requirements mapping
coexist (no RouteExists), and `finalize` on that router succeeds and sets
the `finalized` flag. -/
theorem c10_requirements_coexist :
    okB condAdd1 = true
    ∧ okB condAdd2 = true
    ∧ (expectOk condAdd2).routes.length = 2
    ∧ okB (expectOk condAdd2).finalize = true
    ∧ (expectOk condAdd2).finB.finalized = true := by
  decide

/-- First registration of `test_add_duplicate_route_fails`, static form. -/
def dupStatic (h : Handler) : Except RouterError Router :=
  Router.empty.add "/foo/bar" h none false [] false

/-- First registration of `test_add_duplicate_route_fails`, dynamic form. -/
def dupDynamic (h : Handler) : Except RouterError Router :=
  Router.empty.add "/foo/<bar>" h none false [] false

/-- C3: re-registering an identical signature with an overlapping method-set
fails with RouteExists without `overwrite`; with `overwrite` it succeeds and
a subsequent resolve returns the second registration's handler — for the
static and the dynamic shapes of the cited test, for arbitrary handlers. -/
theorem c3_duplicate_overwrite (h1 h2 : Handler) :
    okB (dupStatic h1) = true
    ∧ (expectOk (dupStatic h1)).add "/foo/bar" h2 none false [] false = .error .routeExists
    ∧ (expectOk ((expectOk (dupStatic h1)).add "/foo/bar" h2 none false [] true)).finB.resolve
        "/foo/bar" "BASE" [] = .ok ⟨["foo", "bar"], h2, []⟩
    ∧ okB (dupDynamic h1) = true
    ∧ (expectOk (dupDynamic h1)).add "/foo/<bar>" h2 none false [] false = .error .routeExists
    ∧ (expectOk ((expectOk (dupDynamic h1)).add "/foo/<bar>" h2 none false [] true)).finB.resolve
        "/foo/x" "BASE" [] = .ok ⟨["foo", "<bar>"], h2, [("bar", .vStr "x")]⟩ := by
  have e1 : dupStatic h1
      = .ok ⟨'/', [⟨["foo", "bar"], [.lit "foo", .lit "bar"], false, [], [(["BASE"], h1)]⟩],
          false, ⟨[]⟩⟩ := rfl
  have e2 : (⟨'/', [⟨["foo", "bar"], [.lit "foo", .lit "bar"], false, [], [(["BASE"], h1)]⟩],
          false, ⟨[]⟩⟩ : Router).add "/foo/bar" h2 none false [] true
      = .ok ⟨'/', [⟨["foo", "bar"], [.lit "foo", .lit "bar"], false, [], [(["BASE"], h2)]⟩],
          false, ⟨[]⟩⟩ := rfl
  have d1 : dupDynamic h1
      = .ok ⟨'/', [⟨["foo", "<bar>"], [.lit "foo", .param "bar" .string], false, [],
          [(["BASE"], h1)]⟩], false, ⟨[]⟩⟩ := rfl
  have d2 : (⟨'/', [⟨["foo", "<bar>"], [.lit "foo", .param "bar" .string], false, [],
          [(["BASE"], h1)]⟩], false, ⟨[]⟩⟩ : Router).add "/foo/<bar>" h2 none false [] true
      = .ok ⟨'/', [⟨["foo", "<bar>"], [.lit "foo", .param "bar" .string], false, [],
          [(["BASE"], h2)]⟩], false, ⟨[]⟩⟩ := rfl
  refine ⟨?_, ?_, ?_, ?_, ?_, ?_⟩
  · rw [e1]; rfl
  · rw [e1]; simp only [expectOk]; rfl
  · rw [e1]; simp only [expectOk]; rw [e2]; simp only [expectOk]; rfl
  · rw [d1]; rfl
  · rw [d1]; simp only [expectOk]; rfl
  · rw [d1]; simp only [expectOk]; rw [d2]; simp only [expectOk]; rfl

/-- The four registrations of `test_add_duplicate_route_alt_method`. -/
def altStep2 (h1 h2 : Handler) : Except RouterError Router :=
  (Router.empty.addB "/foo/bar" h1).add "/foo/bar" h2 (some ["ALT"]) false [] false

/-- Continue with the two dynamic registrations of the same test. -/
def altStep4 (h1 h2 h3 h4 : Handler) : Router :=
  ((expectOk (altStep2 h1 h2)).addB "/foo/<bar>" h3).addB "/foo/<bar:int>" h4

/-- C4: an identical signature with a disjoint method-set merges into the
existing Route's handler table (one static Route, two method entries), while
the same literal path with different dynamic types yields two distinct
dynamic Routes — for arbitrary handlers. -/
theorem c4_disjoint_methods_merge (h1 h2 h3 h4 : Handler) :
    okB (altStep2 h1 h2) = true
    ∧ (altStep4 h1 h2 h3 h4).staticRoutes.length = 1
    ∧ (altStep4 h1 h2 h3 h4).dynamicRoutes.length = 2
    ∧ (altStep4 h1 h2 h3 h4).staticRoutes.map Route.handlers
        = [[(["BASE"], h1), (["ALT"], h2)]]
    ∧ (altStep4 h1 h2 h3 h4).dynamicRoutes.map Route.parts
        = [["foo", "<bar>"], ["foo", "<bar:int>"]]
    ∧ (altStep4 h1 h2 h3 h4).dynamicRoutes.map (fun rt => rt.handlers.length) = [1, 1] := by
  have s1 : Router.empty.addB "/foo/bar" h1
      = ⟨'/', [⟨["foo", "bar"], [.lit "foo", .lit "bar"], false, [], [(["BASE"], h1)]⟩],
          false, ⟨[]⟩⟩ := rfl
  have s2 : altStep2 h1 h2
      = .ok ⟨'/', [⟨["foo", "bar"], [.lit "foo", .lit "bar"], false, [],
          [(["BASE"], h1), (["ALT"], h2)]⟩], false, ⟨[]⟩⟩ := by
    unfold altStep2; rw [s1]; rfl
  have s3 : altStep4 h1 h2 h3 h4
      = ⟨'/', [⟨["foo", "bar"], [.lit "foo", .lit "bar"], false, [],
            [(["BASE"], h1), (["ALT"], h2)]⟩,
          ⟨["foo", "<bar>"], [.lit "foo", .param "bar" .string], false, [], [(["BASE"], h3)]⟩,
          ⟨["foo", "<bar:int>"], [.lit "foo", .param "bar" .int], false, [], [(["BASE"], h4)]⟩],
          false, ⟨[]⟩⟩ := by
    unfold altStep4; rw [s2]; simp only [expectOk]; rfl
  refine ⟨?_, ?_, ?_, ?_, ?_, ?_⟩
  · rw [s2]; rfl
  · rw [s3]; rfl
  · rw [s3]; rfl
  · rw [s3]; rfl
  · rw [s3]; rfl
  · rw [s3]; rfl

/-- Router of `test_method_does_not_exist`: the single methodless
registration of `/foo`. -/
def fooRouter : Router :=
  (Router.empty.addB "/foo" 0).finB

/-- On `fooRouter`, resolution of `/foo` succeeds exactly for the method
`BASE` and fails with NoMethod for every other method string. -/
lemma fooRouter_resolve_method (m : String) :
    fooRouter.resolve "/foo" m [] =
      if m = "BASE" then .ok ⟨["foo"], 0, []⟩ else .error .noMethod := by
  have hn : fooRouter.resolve "/foo" m []
      = walk [⟨[("foo", 1)], [], []⟩,
              ⟨[], [], [⟨["foo"], [.lit "foo"], false, [], [(["BASE"], 0)]⟩]⟩]
          m [] 0 ["foo"] [] := rfl
  by_cases h : m = "BASE"
  · subst h; decide
  · have h2 : ¬("BASE" = m) := fun e => h e.symm
    rw [hn, if_neg h]
    simp [walk, statFind, satisfiesReq, List.find?, h, h2]

/-- C6: with the token sequence consumed at a terminal leaf, a method string
with no exact entry in the leaf's handler table fails with NoMethod (not
NotFound), while the registered method returns the matched parts, handler and
parameter map; a path reaching no leaf at all is NotFound. -/
theorem c6_nomethod_at_leaf :
    (∀ m : String, fooRouter.resolve "/foo" m [] =
      if m = "BASE" then .ok ⟨["foo"], 0, []⟩ else .error .noMethod)
    ∧ fooRouter.resolve "/path/to/nothing" "BASE" [] = .error .notFound :=
  ⟨fooRouter_resolve_method, by decide⟩

/-- C9: a registration made without a method-set is stored under exactly the
single method name `BASE`, and is resolvable under `BASE` and under no other
method string (any other method at that leaf is NoMethod). -/
theorem c9_default_method_base :
    (expectOk (Router.empty.add "/foo" 0 none false [] false)).routes.map Route.handlers
      = [[(["BASE"], 0)]]
    ∧ (∀ m : String, fooRouter.resolve "/foo" m [] =
        if m = "BASE" then .ok ⟨["foo"], 0, []⟩ else .error .noMethod) :=
  ⟨by decide, fooRouter_resolve_method⟩

/-- C8: finalize is idempotent — a second finalize with no intervening add
returns the very same router (so every (path, method) input resolves
identically), and each call wholly derives the tree from the current Route
collection. -/
theorem c8_finalize_idempotent (r r1 : Router) (h : r.finalize = .ok r1) :
    r1.finalize = .ok r1
    ∧ r1.tree = ⟨buildNodes r.routes⟩
    ∧ ∀ r2 : Router, r1.finalize = .ok r2 →
        ∀ (p m : String) (e : List (String × String)), r2.resolve p m e = r1.resolve p m e := by
  unfold Router.finalize at h
  split at h
  case isTrue hc =>
    have h1 : r1 = { r with tree := ⟨buildNodes r.routes⟩, finalized := true } :=
      (Except.ok.inj h).symm
    subst h1
    have hfix : ({ r with tree := ⟨buildNodes r.routes⟩, finalized := true } : Router).finalize
        = .ok { r with tree := ⟨buildNodes r.routes⟩, finalized := true } := by
      unfold Router.finalize
      dsimp only
      rw [if_pos hc]
    refine ⟨hfix, rfl, ?_⟩
    intro r2 h2 p m e
    rw [hfix] at h2
    rw [← Except.ok.inj h2]
  case isFalse hc =>
    exact (Except.noConfusion h)

/-- Witness for C8 at a concrete single-route router. -/
theorem c8_finalize_idempotent_witness :
    ((Router.empty.addB "/w" 9).finB).finalize = .ok ((Router.empty.addB "/w" 9).finB) :=
  (c8_finalize_idempotent (Router.empty.addB "/w" 9) ((Router.empty.addB "/w" 9).finB)
    (by decide)).1

/-- One resolution step through a dynamic child: when the static lookup
fails and a dynamic child accepts the token, the walk descends into that
child recording the cast value. -/
lemma walk_step_dyn (nodes : List RTreeNode) (method : String)
    (extra : List (String × String)) (idx : Nat) (tok : String)
    (rest : List String) (acc : List Value) (n : RTreeNode) (ci : Nat) (v : Value)
    (hn : nodes[idx]? = some n)
    (hs : statFind tok n.statics = none)
    (hd : firstDyn n.dynamics tok = some (ci, v)) :
    walk nodes method extra idx (tok :: rest) acc
      = walk nodes method extra ci rest (acc ++ [v]) := by
  simp only [walk, hn, hs, hd]

/-- Labels of the registered Type Rules, as written in a path pattern. -/
def typeLabel : ParamType → String
  | .uuid => "uuid"
  | .ymd => "ymd"
  | .number => "number"
  | .int => "int"
  | .alpha => "alpha"
  | .string => "string"
  | .custom p => p

/-- The handlers registered per built-in type in `sixRouter`, mirroring the
six registrations of `test_casting`. -/
def sixHandler : ParamType → Handler
  | .string => 10
  | .int => 11
  | .number => 12
  | .alpha => 13
  | .ymd => 14
  | .uuid => 15
  | .custom _ => 0

/-- Router with all six built-in types registered at the same position, in
the registration order of `test_casting`. -/
def sixRouter : Router :=
  ((((((Router.empty.addB "/<foo:string>" 10).addB "/<foo:int>" 11).addB
    "/<foo:number>" 12).addB "/<foo:alpha>" 13).addB "/<foo:ymd>" 14).addB
    "/<foo:uuid>" 15).finB

/-- The single-route leaf node of `sixRouter` for one built-in type. -/
def sixLeaf (tp : ParamType) : RTreeNode :=
  ⟨[], [], [⟨["<foo:" ++ typeLabel tp ++ ">"], [.param "foo" tp], false, [],
    [(["BASE"], sixHandler tp)]⟩]⟩

/-- The compiled node arena of `sixRouter`: the dynamic children at the root
are ordered by specificity rank regardless of registration order. -/
def sixNodes : List RTreeNode :=
  [⟨[], [(.uuid, 6), (.ymd, 5), (.number, 3), (.int, 2), (.alpha, 4), (.string, 1)], []⟩,
   sixLeaf .string, sixLeaf .int, sixLeaf .number, sixLeaf .alpha, sixLeaf .ymd,
   sixLeaf .uuid]

lemma sixRouter_nodes : sixRouter.tree.nodes = sixNodes := by decide

/-- Descend from the root of `sixNodes` through the dynamic child selected
by `firstDyn` on the root's rank-ordered alternatives. -/
lemma sixWalk (tok : String) (ci : Nat) (v : Value)
    (hd : firstDyn [(.uuid, 6), (.ymd, 5), (.number, 3), (.int, 2), (.alpha, 4),
        (.string, 1)] tok = some (ci, v)) :
    walk sixNodes "BASE" [] 0 [tok] [] = walk sixNodes "BASE" [] ci [] [v] :=
  walk_step_dyn sixNodes "BASE" [] 0 tok [] []
    ⟨[], [(.uuid, 6), (.ymd, 5), (.number, 3), (.int, 2), (.alpha, 4), (.string, 1)], []⟩
    ci v (by decide) rfl hd

/-- Router with both `/<x>` (default string) and `/<x:int>` registered at the
same skeleton. -/
def pairRouter : Router :=
  ((Router.empty.addB "/<x>" 20).addB "/<x:int>" 21).finB

/-- C1: with dynamic alternatives at one position the resolver selects the
most specific built-in rule accepting the token, trying `uuid`, `ymd`,
`number`, `int`, `alpha`, `string` in that fixed order: on the six-type
router every token resolves to exactly the handler of its matching type, and
with `/<x>` and `/<x:int>` both registered, `111` selects the int variant
and `something` the string variant. -/
theorem c1_specificity_order :
    (∀ tok : String, (sixRouter.resolveParts [tok] "BASE" []).map RMatch.handler
        = .ok (sixHandler (mostSpecific tok)))
    ∧ pairRouter.resolve "/111" "BASE" [] = .ok ⟨["<x:int>"], 21, [("x", .vInt 111)]⟩
    ∧ pairRouter.resolve "/something" "BASE" []
        = .ok ⟨["<x>"], 20, [("x", .vStr "something")]⟩ := by
  refine ⟨?_, by decide, by decide⟩
  intro tok
  have hr : sixRouter.resolveParts [tok] "BASE" [] = walk sixNodes "BASE" [] 0 [tok] [] := by
    unfold Router.resolveParts
    rw [sixRouter_nodes]
  rw [hr]
  rcases hu : castValue .uuid tok with _ | vu
  case some =>
    rw [sixWalk tok 6 vu (by simp only [firstDyn, hu])]
    simp only [mostSpecific, hu, Option.isSome_some, Option.isSome_none, if_true,
      if_false, Bool.false_eq_true, ite_false, ite_true]
    rfl
  case none =>
  rcases hy : castValue .ymd tok with _ | vy
  case some =>
    rw [sixWalk tok 5 vy (by simp only [firstDyn, hu, hy])]
    simp only [mostSpecific, hu, hy, Option.isSome_some, Option.isSome_none, if_true,
      if_false, Bool.false_eq_true, ite_false, ite_true]
    rfl
  case none =>
  rcases hm : castValue .number tok with _ | vm
  case some =>
    rw [sixWalk tok 3 vm (by simp only [firstDyn, hu, hy, hm])]
    simp only [mostSpecific, hu, hy, hm, Option.isSome_some, Option.isSome_none, if_true,
      if_false, Bool.false_eq_true, ite_false, ite_true]
    rfl
  case none =>
  rcases hi : castValue .int tok with _ | vi
  case some =>
    rw [sixWalk tok 2 vi (by simp only [firstDyn, hu, hy, hm, hi])]
    simp only [mostSpecific, hu, hy, hm, hi, Option.isSome_some, Option.isSome_none, if_true,
      if_false, Bool.false_eq_true, ite_false, ite_true]
    rfl
  case none =>
  rcases ha : castValue .alpha tok with _ | va
  case some =>
    rw [sixWalk tok 4 va (by simp only [firstDyn, hu, hy, hm, hi, ha])]
    simp only [mostSpecific, hu, hy, hm, hi, ha, Option.isSome_some, Option.isSome_none, if_true,
      if_false, Bool.false_eq_true, ite_false, ite_true]
    rfl
  case none =>
    rw [sixWalk tok 1 (.vStr tok) (by simp only [firstDyn, hu, hy, hm, hi, ha]; rfl)]
    simp only [mostSpecific, hu, hy, hm, hi, ha, Option.isSome_some, Option.isSome_none,
      if_true, if_false, Bool.false_eq_true, ite_false, ite_true]
    rfl

/-- Router with a single dynamic registration `/<foo:T>` for a declared
type `T`. -/
def oneRouter (T : ParamType) : Router :=
  (Router.empty.addB ("/<foo:" ++ typeLabel T ++ ">") 7).finB

/-- The compiled node arena of `oneRouter T` for a registered type label. -/
def oneNodes (T : ParamType) : List RTreeNode :=
  [⟨[], [(T, 1)], []⟩,
   ⟨[], [], [⟨["<foo:" ++ typeLabel T ++ ">"], [.param "foo" T], false, [],
     [(["BASE"], 7)]⟩]⟩]

lemma oneRouter_nodes : ∀ T ∈ builtinTypes, (oneRouter T).tree.nodes = oneNodes T := by
  decide

/-- C2: for every built-in declared type `T` and every token accepted by
`T`'s recognition pattern, resolution returns exactly `T`'s conversion of
the token, bound under the declared parameter name — e.g. `123` with type
`int` yields the integer 123 — and a string-typed token is returned as the
unmodified string. -/
theorem c2_cast_roundtrip :
    (∀ T ∈ builtinTypes, ∀ (tok : String) (v : Value), castValue T tok = some v →
      (oneRouter T).resolveParts [tok] "BASE" []
        = .ok ⟨["<foo:" ++ typeLabel T ++ ">"], 7, [("foo", v)]⟩)
    ∧ (oneRouter .int).resolve "/123" "BASE" [] = .ok ⟨["<foo:int>"], 7, [("foo", .vInt 123)]⟩
    ∧ (∀ tok : String, (oneRouter .string).resolveParts [tok] "BASE" []
        = .ok ⟨["<foo:string>"], 7, [("foo", .vStr tok)]⟩) := by
  have key : ∀ T ∈ builtinTypes, ∀ (tok : String) (v : Value), castValue T tok = some v →
      (oneRouter T).resolveParts [tok] "BASE" []
        = .ok ⟨["<foo:" ++ typeLabel T ++ ">"], 7, [("foo", v)]⟩ := by
    intro T hT tok v hc
    unfold Router.resolveParts
    rw [oneRouter_nodes T hT]
    rw [walk_step_dyn (oneNodes T) "BASE" [] 0 tok [] [] ⟨[], [(T, 1)], []⟩ 1 v rfl rfl
      (by simp only [firstDyn, hc])]
    rfl
  exact ⟨key, by decide, fun tok => key .string (by decide) tok (.vStr tok) rfl⟩

/-- Witness for C2 at the declared type `int` and token `123`. -/
theorem c2_cast_roundtrip_witness :
    (oneRouter .int).resolveParts ["123"] "BASE" []
      = .ok ⟨["<foo:int>"], 7, [("foo", .vInt 123)]⟩ :=
  c2_cast_roundtrip.1 .int (by decide) "123" (.vInt 123) (by decide)
